import Mathlib

/-!
Verification of the fastpitch tournament scraper pipeline
(fastpitch_scraper.py and server.py), as a shallow embedding.

Python values that flow through the pipeline are modelled by `PyVal`
(absent/None, strings, lists of strings), dictionaries by association
lists, JSON documents by `PyJson`, and the outcome of each network
attempt by `Attempt`.  Effectful loops are modelled by explicit
recursion over the sequence of outcomes the environment would produce.
-/

/-- A Python value as used by the scraper records: `None` (also the result
of a failed dict lookup), a string, or a list of strings. -/
inductive PyVal where
  | none
  | str (s : String)
  | list (l : List String)
deriving DecidableEq, Repr

/-- Python truthiness on `PyVal`: `None`, the empty string and the empty
list are falsy, everything else truthy. -/
def truthy : PyVal → Bool
  | PyVal.none => false
  | PyVal.str s => s != ""
  | PyVal.list l => !l.isEmpty

/-- Python `x or y`: `x` when truthy, else `y`. -/
def pyOr (x y : PyVal) : PyVal :=
  if truthy x then x else y

/-- A raw record produced by a source adapter: a Python dict, modelled as
an association list from keys to values. -/
def RawRecord : Type := List (String × PyVal)

/-- Python `dict.get(k)`: the stored value, or `None` when absent. -/
def rawGet (r : RawRecord) (k : String) : PyVal :=
  (List.lookup k r).getD PyVal.none

/-- The canonical event shape produced by `normalize_event`.  Field values
are kept as `PyVal` because the Python code stores whatever value the
alias chain produced. -/
structure CanonicalEvent where
  event_name : PyVal
  start_date : PyVal
  end_date : PyVal
  location : PyVal
  sanction : PyVal
  link : PyVal
  age_divisions : PyVal
deriving DecidableEq, Repr

/-- `normalize_event` from fastpitch_scraper.py (lines 114-123): each
canonical field is the Python `or`-chain over its alias keys with the
sentinel as final default. -/
def normalize_event (event : RawRecord) : CanonicalEvent :=
  { event_name :=
      pyOr (rawGet event "event_name") (pyOr (rawGet event "name")
        (pyOr (rawGet event "Name") (PyVal.str "N/A")))
    start_date :=
      pyOr (rawGet event "start_date") (pyOr (rawGet event "startDate")
        (pyOr (rawGet event "StartDate") (PyVal.str "N/A")))
    end_date :=
      pyOr (rawGet event "end_date") (pyOr (rawGet event "endDate")
        (pyOr (rawGet event "EndDate") (PyVal.str "N/A")))
    location :=
      pyOr (rawGet event "location") (pyOr (rawGet event "Location")
        (pyOr (rawGet event "city") (PyVal.str "N/A")))
    sanction :=
      pyOr (rawGet event "sanction") (pyOr (rawGet event "source") (PyVal.str "N/A"))
    link :=
      pyOr (rawGet event "link") (pyOr (rawGet event "url")
        (pyOr (rawGet event "link_url") (PyVal.str "N/A")))
    age_divisions :=
      pyOr (rawGet event "age_divisions") (pyOr (rawGet event "age") (PyVal.list [])) }

/-- Specification-side account of the scalar alias lookup: the first alias
whose stored value is non-empty (truthy), else the sentinel string. -/
def specScalar (r : RawRecord) : List String → PyVal
  | [] => PyVal.str "N/A"
  | k :: ks => if truthy (rawGet r k) then rawGet r k else specScalar r ks

/-- Specification-side account of the age-divisions lookup: the first alias
whose stored value is non-empty, else the empty sequence. -/
def specAge (r : RawRecord) : List String → PyVal
  | [] => PyVal.list []
  | k :: ks => if truthy (rawGet r k) then rawGet r k else specAge r ks

/-- Truthiness distributes over the Python `or`. -/
theorem truthy_pyOr (x y : PyVal) : truthy (pyOr x y) = (truthy x || truthy y) := by
  unfold pyOr
  by_cases h : truthy x <;> simp [h]

/-- One adapter invocation as seen by the controller: either it raised
(`Except.error`) or it returned its list of raw records. -/
def AdapterResult : Type := Except Unit (List RawRecord)

/-- The per-adapter contribution the spec describes: the normalized output
of a successful adapter, nothing for a failed one. -/
def adapterContribution (r : AdapterResult) : List CanonicalEvent :=
  match r with
  | Except.ok data => data.map normalize_event
  | Except.error _ => []

/-- The aggregation loop of `run_all_scrapers` (lines 411-423): each
adapter is invoked inside a try/except; a raise contributes nothing and
never aborts the loop; successful output is normalized record by record
and appended in order.  (`if data:` only skips appending an empty list,
which appends nothing anyway.) -/
def run_all_scrapers (results : List AdapterResult) : List CanonicalEvent :=
  results.foldl
    (fun acc r =>
      match r with
      | Except.ok data => acc ++ data.map normalize_event
      | Except.error _ => acc)
    []

theorem run_all_scrapers_foldl (results : List AdapterResult)
    (acc : List CanonicalEvent) :
    results.foldl
      (fun acc r =>
        match r with
        | Except.ok data => acc ++ data.map normalize_event
        | Except.error _ => acc)
      acc = acc ++ (results.map adapterContribution).flatten := by
  induction results generalizing acc with
  | nil => simp
  | cons r rest ih =>
    cases r with
    | ok data => simp [List.foldl_cons, ih, adapterContribution]
    | error e => simp [List.foldl_cons, ih, adapterContribution]

/-- A raw record carrying only an event name, used to realize the concrete
scenario of the spec (adapter A yields A0, A1; adapter C yields C0..C2). -/
def namedRaw (n : String) : RawRecord := [("event_name", PyVal.str n)]

/-- The canonical event that normalizing `namedRaw n` produces: the name,
sentinels everywhere else, empty age divisions. -/
def namedEvent (n : String) : CanonicalEvent :=
  { event_name := PyVal.str n
    start_date := PyVal.str "N/A"
    end_date := PyVal.str "N/A"
    location := PyVal.str "N/A"
    sanction := PyVal.str "N/A"
    link := PyVal.str "N/A"
    age_divisions := PyVal.list [] }

/-- C1: failure isolation of the aggregation run.  For every sequence of
adapter results, `run_all_scrapers` returns the concatenation, in
registration order, of each successful adapter's normalized output in
extraction order, with a raising adapter contributing zero events; and in
the concrete scenario A yields 2 events, B raises, C yields 3 events, the
run returns exactly the 5 events A0, A1, C0, C1, C2 in that order. -/
theorem C1_failure_isolation :
    (∀ results : List AdapterResult,
      run_all_scrapers results = (results.map adapterContribution).flatten) ∧
    run_all_scrapers
        [Except.ok [namedRaw "A0", namedRaw "A1"],
         Except.error (),
         Except.ok [namedRaw "C0", namedRaw "C1", namedRaw "C2"]] =
      [namedEvent "A0", namedEvent "A1",
       namedEvent "C0", namedEvent "C1", namedEvent "C2"] ∧
    (run_all_scrapers
        [Except.ok [namedRaw "A0", namedRaw "A1"],
         Except.error (),
         Except.ok [namedRaw "C0", namedRaw "C1", namedRaw "C2"]]).length = 5 := by
  refine ⟨fun results => ?_, by decide, by decide⟩
  simpa using run_all_scrapers_foldl results []

/-- The scalar alias lookup always produces a non-empty value: a truthy
alias value, or the (non-empty) sentinel string. -/
theorem truthy_specScalar (r : RawRecord) : ∀ ks, truthy (specScalar r ks) = true := by
  intro ks
  induction ks with
  | nil => simp [specScalar, truthy]
  | cons k ks ih => by_cases h : truthy (rawGet r k) <;> simp [specScalar, h, ih]

/-- C2: the normalizer is pure and total.  For every raw record, each of
the six scalar fields equals the first present non-empty value of its
ordered alias list (else the sentinel), every scalar field is non-empty
(truthy), and age_divisions is the first non-empty alias value, defaulting
to the empty sequence. -/
theorem C2_normalize_total (r : RawRecord) :
    (normalize_event r).event_name = specScalar r ["event_name", "name", "Name"] ∧
    (normalize_event r).start_date = specScalar r ["start_date", "startDate", "StartDate"] ∧
    (normalize_event r).end_date = specScalar r ["end_date", "endDate", "EndDate"] ∧
    (normalize_event r).location = specScalar r ["location", "Location", "city"] ∧
    (normalize_event r).sanction = specScalar r ["sanction", "source"] ∧
    (normalize_event r).link = specScalar r ["link", "url", "link_url"] ∧
    (normalize_event r).age_divisions = specAge r ["age_divisions", "age"] ∧
    truthy (normalize_event r).event_name = true ∧
    truthy (normalize_event r).start_date = true ∧
    truthy (normalize_event r).end_date = true ∧
    truthy (normalize_event r).location = true ∧
    truthy (normalize_event r).sanction = true ∧
    truthy (normalize_event r).link = true := by
  have e1 : (normalize_event r).event_name = specScalar r ["event_name", "name", "Name"] := by
    simp [normalize_event, specScalar, pyOr]
  have e2 : (normalize_event r).start_date =
      specScalar r ["start_date", "startDate", "StartDate"] := by
    simp [normalize_event, specScalar, pyOr]
  have e3 : (normalize_event r).end_date = specScalar r ["end_date", "endDate", "EndDate"] := by
    simp [normalize_event, specScalar, pyOr]
  have e4 : (normalize_event r).location = specScalar r ["location", "Location", "city"] := by
    simp [normalize_event, specScalar, pyOr]
  have e5 : (normalize_event r).sanction = specScalar r ["sanction", "source"] := by
    simp [normalize_event, specScalar, pyOr]
  have e6 : (normalize_event r).link = specScalar r ["link", "url", "link_url"] := by
    simp [normalize_event, specScalar, pyOr]
  have e7 : (normalize_event r).age_divisions = specAge r ["age_divisions", "age"] := by
    simp [normalize_event, specAge, pyOr]
  refine ⟨e1, e2, e3, e4, e5, e6, e7, ?_, ?_, ?_, ?_, ?_, ?_⟩ <;>
    simp [e1, e2, e3, e4, e5, e6, truthy_specScalar]

/-- The outcome the environment produces for one HTTP attempt: an exception
(timeout, network error, non-success status raised by raise_for_status) or
a successful response with its body text. -/
inductive Attempt where
  | fail
  | success (body : String)
deriving DecidableEq, Repr

/-- The retry loop shared by `fetch_via_scrapingant` and `fetch_direct`:
make up to `n` attempts starting at index `i`; return the body of the
first successful attempt, or `None` when all attempts raised. -/
def retryLoop (outcomes : Nat → Attempt) : Nat → Nat → Option String
  | 0, _ => Option.none
  | n + 1, i =>
    match outcomes i with
    | Attempt.success body => some body
    | Attempt.fail => retryLoop outcomes n (i + 1)

/-- SCRAPINGANT_RETRIES from the config section (line 33). -/
def SCRAPINGANT_RETRIES : Nat := 3

/-- DIRECT_RETRIES from the config section (line 35). -/
def DIRECT_RETRIES : Nat := 2

/-- `fetch_via_scrapingant` (lines 40-73): with no configured key it
returns `None` immediately; otherwise it runs the relay retry loop. -/
def fetch_via_scrapingant (keyConfigured : Bool) (outcomes : Nat → Attempt) :
    Option String :=
  if keyConfigured then retryLoop outcomes SCRAPINGANT_RETRIES 0 else Option.none

/-- `fetch_direct` (lines 79-92): the direct retry loop. -/
def fetch_direct (outcomes : Nat → Attempt) : Option String :=
  retryLoop outcomes DIRECT_RETRIES 0

/-- Python truthiness of an optional string (`if txt:`). -/
def truthyOptStr : Option String → Bool
  | Option.none => false
  | some s => s != ""

/-- `fetch` (lines 98-108): when a relay key is configured and
`prefer_proxy` is set, try the relay first and return its body if truthy
(non-empty); otherwise fall through to the direct loop. -/
def fetch (keyConfigured prefer_proxy : Bool)
    (relayOutcomes directOutcomes : Nat → Attempt) : Option String :=
  if keyConfigured && prefer_proxy then
    let txt := fetch_via_scrapingant keyConfigured relayOutcomes
    if truthyOptStr txt then txt else fetch_direct directOutcomes
  else fetch_direct directOutcomes

/-- Specification-side description: the body of the first successful
attempt in a list of outcomes, if any. -/
def firstSuccessBody (outs : List Attempt) : Option String :=
  outs.findSome? (fun a =>
    match a with
    | Attempt.success b => some b
    | Attempt.fail => Option.none)

theorem retryLoop_three (outcomes : Nat → Attempt) :
    retryLoop outcomes 3 0 = firstSuccessBody [outcomes 0, outcomes 1, outcomes 2] := by
  cases h0 : outcomes 0 <;> cases h1 : outcomes 1 <;> cases h2 : outcomes 2 <;>
    simp [retryLoop, firstSuccessBody, List.findSome?, h0, h1, h2]

theorem retryLoop_two (outcomes : Nat → Attempt) :
    retryLoop outcomes 2 0 = firstSuccessBody [outcomes 0, outcomes 1] := by
  cases h0 : outcomes 0 <;> cases h1 : outcomes 1 <;>
    simp [retryLoop, firstSuccessBody, List.findSome?, h0, h1]

/-- C3 counterexample: the claim implies `fetch` either returns a
non-empty body or returns `None`; but when the first direct attempt
succeeds with an empty body, `fetch` returns `some ""` — an empty body —
without exhausting the remaining direct attempt. -/
theorem C3_counterexample :
    ¬ (∀ (key pp : Bool) (ro dd : Nat → Attempt),
        fetch key pp ro dd = Option.none ∨
        ∃ b, fetch key pp ro dd = some b ∧ b ≠ "") := by
  intro h
  have hval : fetch false false (fun _ => Attempt.fail)
      (fun _ => Attempt.success "") = some "" := rfl
  rcases h false false (fun _ => Attempt.fail) (fun _ => Attempt.success "") with h1 | h2
  · rw [hval] at h1
    exact Option.noConfusion h1
  · rcases h2 with ⟨b, hb, hne⟩
    rw [hval] at hb
    exact hne (Option.some.injEq _ _ ▸ hb).symm

/-- C3 (amended): `fetch` consults the relay path first — at most 3 relay
outcomes — when a key is configured and `prefer_proxy` is set; a relay
success with a non-empty body is returned; a relay success with an empty
body or relay exhaustion falls through to the direct path, whose result is
the body of the first success among at most 2 direct outcomes (possibly
empty), or `None` when both direct attempts raise.  `fetch` is a total
function of the attempt outcomes: it never raises. -/
theorem C3_fetch_relay_then_direct (key pp : Bool) (ro dd : Nat → Attempt) :
    fetch key pp ro dd =
      match (if key && pp then firstSuccessBody [ro 0, ro 1, ro 2] else Option.none) with
      | some b => if b = "" then firstSuccessBody [dd 0, dd 1] else some b
      | Option.none => firstSuccessBody [dd 0, dd 1] := by
  cases key <;> cases pp <;>
    simp [fetch, fetch_via_scrapingant, fetch_direct, SCRAPINGANT_RETRIES,
      DIRECT_RETRIES, retryLoop_three, retryLoop_two]
  case true.true =>
    cases hfs : firstSuccessBody [ro 0, ro 1, ro 2] with
    | none => simp [truthyOptStr]
    | some b =>
      by_cases hb : b = "" <;> simp [truthyOptStr, hb]

/-- The base backoff delay sequence of a retry loop (jitter excluded):
`backoff` starts at `b0` and doubles after each failed attempt
(`backoff *= 2`). -/
def backoffSeq (b0 : ℚ) : Nat → ℚ
  | 0 => b0
  | n + 1 => backoffSeq b0 n * 2

/-- Initial relay backoff (line 62: `backoff = 1.0`). -/
def SCRAPINGANT_INITIAL_BACKOFF : ℚ := 1

/-- Initial direct backoff (line 81: `backoff = 0.8`). -/
def DIRECT_INITIAL_BACKOFF : ℚ := 4 / 5

theorem backoffSeq_nonneg (b0 : ℚ) (hb : 0 ≤ b0) : ∀ n, 0 ≤ backoffSeq b0 n := by
  intro n
  induction n with
  | zero => simpa [backoffSeq] using hb
  | succ n ih =>
    have : (0 : ℚ) ≤ backoffSeq b0 n * 2 := by positivity
    simpa [backoffSeq] using this

/-- C9: backoff monotonicity.  In both the relay retry loop (initial base
delay 1.0) and the direct retry loop (initial base delay 0.8), each base
backoff delay is at least the previous one. -/
theorem C9_backoff_monotone (n : Nat) :
    backoffSeq SCRAPINGANT_INITIAL_BACKOFF n ≤ backoffSeq SCRAPINGANT_INITIAL_BACKOFF (n + 1) ∧
    backoffSeq DIRECT_INITIAL_BACKOFF n ≤ backoffSeq DIRECT_INITIAL_BACKOFF (n + 1) := by
  constructor
  · have h := backoffSeq_nonneg SCRAPINGANT_INITIAL_BACKOFF (by norm_num [SCRAPINGANT_INITIAL_BACKOFF]) n
    simp only [backoffSeq]
    linarith
  · have h := backoffSeq_nonneg DIRECT_INITIAL_BACKOFF (by norm_num [DIRECT_INITIAL_BACKOFF]) n
    simp only [backoffSeq]
    linarith

/-- A JSON document as produced by Python json load/dump. -/
inductive PyJson where
  | null
  | bool (b : Bool)
  | num (n : Int)
  | str (s : String)
  | arr (l : List PyJson)
  | obj (fields : List (String × PyJson))

/-- Python `len` on a JSON value: defined for strings, arrays and objects;
a `TypeError` (None here) otherwise. -/
def pyLen : PyJson → Option Nat
  | PyJson.str s => some s.length
  | PyJson.arr l => some l.length
  | PyJson.obj fields => some fields.length
  | _ => Option.none

/-- JSON serialization of a record value. -/
def pyValToJson : PyVal → PyJson
  | PyVal.none => PyJson.null
  | PyVal.str s => PyJson.str s
  | PyVal.list l => PyJson.arr (l.map PyJson.str)

/-- JSON serialization of one canonical event (the dict that
`run_all_scrapers` appends to `all_events`). -/
def eventToJson (e : CanonicalEvent) : PyJson :=
  PyJson.obj
    [("event_name", pyValToJson e.event_name),
     ("start_date", pyValToJson e.start_date),
     ("end_date", pyValToJson e.end_date),
     ("location", pyValToJson e.location),
     ("sanction", pyValToJson e.sanction),
     ("link", pyValToJson e.link),
     ("age_divisions", pyValToJson e.age_divisions)]

/-- The JSON value `run_all_scrapers` writes to fastpitch_master.json
(lines 426-430): `json.dump(all_events, f)` — the bare event list. -/
def persistJson (events : List CanonicalEvent) : PyJson :=
  PyJson.arr (events.map eventToJson)

/-- What reading fastpitch_master.json can produce: no file (absent or
unreadable), unparsable content, or a parsed JSON value. -/
inductive ReadResult where
  | noFile
  | badJson
  | parsed (j : PyJson)

/-- `get_events` (lines 456-466): open and parse the snapshot file inside
a try/except; on success return the dict with count = len(data) and
events = data; any exception along the way — including the `TypeError`
that `len` raises on a number, boolean or null — yields count 0 and an
empty event list. -/
def get_events (file : ReadResult) : PyJson :=
  match file with
  | ReadResult.parsed j =>
    match pyLen j with
    | some n => PyJson.obj [("count", PyJson.num n), ("events", j)]
    | Option.none => PyJson.obj [("count", PyJson.num 0), ("events", PyJson.arr [])]
  | _ => PyJson.obj [("count", PyJson.num 0), ("events", PyJson.arr [])]

/-- The empty snapshot the spec says `load()` returns on bad storage. -/
def emptySnapshotJson : PyJson :=
  PyJson.obj [("count", PyJson.num 0), ("events", PyJson.arr [])]

/-- Does a JSON value have the shape the spec claims for the persisted
file: an object with an integer count field and an events array field? -/
def isCountEventsObj : PyJson → Bool
  | PyJson.obj fields =>
    (match List.lookup "count" fields with
     | some (PyJson.num _) => true
     | _ => false) &&
    (match List.lookup "events" fields with
     | some (PyJson.arr _) => true
     | _ => false)
  | _ => false

/-- C4: persist/load round trip.  For every event sequence a run persists,
`get_events` on the persisted value returns the object whose count is the
number of persisted events and whose events field is exactly the persisted
sequence, in order. -/
theorem C4_persist_load_round_trip (events : List CanonicalEvent) :
    get_events (ReadResult.parsed (persistJson events)) =
      PyJson.obj
        [("count", PyJson.num events.length),
         ("events", PyJson.arr (events.map eventToJson))] := by
  simp [get_events, persistJson, pyLen]

/-- C5 counterexample: the file written by a run does not have the
claimed top-level object shape with count and events fields — it is a
bare array.  Shown at a concrete one-event run output. -/
theorem C5_counterexample :
    isCountEventsObj (persistJson [namedEvent "A0"]) = false := by
  rfl

/-- C5 (amended): the persisted structured file is the JSON array of the
run's CanonicalEvents, one element per event in order; it never has the
object-with-count-and-events shape (that wrapper is built by the read
path, `get_events`). -/
theorem C5_persisted_shape (events : List CanonicalEvent) :
    (∃ l, persistJson events = PyJson.arr l ∧ l.length = events.length) ∧
    isCountEventsObj (persistJson events) = false := by
  exact ⟨⟨events.map eventToJson, rfl, by simp⟩, rfl⟩

/-- C7 counterexample: a readable, parseable file whose content is
malformed as a snapshot — the JSON string "abc", which no run ever
persists — makes `get_events` return count 3 with the string as events,
not the empty snapshot. -/
theorem C7_counterexample :
    get_events (ReadResult.parsed (PyJson.str "abc")) =
      PyJson.obj [("count", PyJson.num 3), ("events", PyJson.str "abc")] ∧
    get_events (ReadResult.parsed (PyJson.str "abc")) ≠ emptySnapshotJson ∧
    (∀ events : List CanonicalEvent, persistJson events ≠ PyJson.str "abc") := by
  refine ⟨rfl, by simp [get_events, pyLen, emptySnapshotJson], fun events h => ?_⟩
  exact PyJson.noConfusion h

/-- C7 (amended): `get_events` never raises, and returns exactly the empty
snapshot (count 0, no events) when the file is absent, unreadable, or
unparsable, and also when the parsed value has no Python length (null,
boolean, number); but a parsed value with a length that is not an event
array (for example a JSON string) is instead wrapped as count = its length
and events = the value itself. -/
theorem C7_load_total_on_bad_storage :
    get_events ReadResult.noFile = emptySnapshotJson ∧
    get_events ReadResult.badJson = emptySnapshotJson ∧
    get_events (ReadResult.parsed PyJson.null) = emptySnapshotJson ∧
    (∀ b, get_events (ReadResult.parsed (PyJson.bool b)) = emptySnapshotJson) ∧
    (∀ n, get_events (ReadResult.parsed (PyJson.num n)) = emptySnapshotJson) ∧
    (∀ s, get_events (ReadResult.parsed (PyJson.str s)) =
      PyJson.obj [("count", PyJson.num s.length), ("events", PyJson.str s)]) := by
  exact ⟨rfl, rfl, rfl, fun b => rfl, fun n => rfl, fun s => rfl⟩

/-- The `/events` handler of server.py (lines 28-34): it takes the dict
returned by `get_events` — already of the form count + events — and wraps
it again: `jsonify(count = len(data), events = data)`.  `len` of that dict
is always its number of keys.  A `len` failure would escape the handler
(there is no try/except in server.py), hence the `Option`. -/
def events_handler (file : ReadResult) : Option PyJson :=
  let data := get_events file
  match pyLen data with
  | some n => some (PyJson.obj [("count", PyJson.num n), ("events", data)])
  | Option.none => Option.none

/-- C6 (code bug): for the persisted output of a one-event run, the
`/events` handler responds with count = 2 — the number of keys of the
`get_events` dict — and an events field holding that whole dict, instead
of count = 1 and the stored event list.  The handler wraps the already
wrapped `get_events` result a second time. -/
theorem C6_events_endpoint_double_wrap :
    events_handler (ReadResult.parsed (persistJson [namedEvent "A0"])) =
      some (PyJson.obj
        [("count", PyJson.num 2),
         ("events", PyJson.obj
           [("count", PyJson.num 1),
            ("events", PyJson.arr [eventToJson (namedEvent "A0")])])]) := by
  rfl

/-- The selector-fallback loop of `scrape_usfa` (lines 221-225): walk the
candidate selectors in order; the first non-empty match set wins; if every
selector matches nothing the result is the empty list. -/
def selectorFallback {α : Type} (doc : String → List α) : List String → List α
  | [] => []
  | sel :: rest =>
    match doc sel with
    | [] => selectorFallback doc rest
    | found => found

/-- The candidate selectors of `scrape_usfa` (lines 218-220). -/
def usfaSelectors : List String :=
  [".tournament-card", ".card.tournament", ".event", ".tournaments-list .tournament", ".listing"]

/-- C8: selector-fallback chain.  For every document and ordered candidate
list, the extractor returns the first non-empty match set in candidate
order (empty when none matches); in particular, over the USFA candidate
list, a document on which only the third selector (".event") matches
yields exactly that third match set. -/
theorem C8_selector_fallback :
    (∀ (α : Type) (doc : String → List α) (sels : List String),
      selectorFallback doc sels =
        ((sels.map doc).find? (fun l => !l.isEmpty)).getD []) ∧
    selectorFallback (fun sel => if sel = ".event" then [7, 8] else ([] : List Nat))
        usfaSelectors =
      [7, 8] := by
  constructor
  · intro α doc sels
    induction sels with
    | nil => simp [selectorFallback]
    | cons sel rest ih =>
      cases hd : doc sel with
      | nil => simpa [selectorFallback, hd, List.find?] using ih
      | cons x xs => simp [selectorFallback, hd, List.find?]
  · rfl

/-- A markup element as the adapters use it: its stripped text and its
optional href attribute.  Matched tags are treated as truthy. -/
structure Tag where
  text : String
  href : Option String
deriving DecidableEq, Repr

/-- One matched card/row, viewed through `select_one`: for each selector
string, the first matching sub-element, if any. -/
def Card : Type := String → Option Tag

/-- Python `a or b` over `select_one` results: the first match found. -/
def tagOr (x y : Option Tag) : Option Tag :=
  match x with
  | some t => some t
  | Option.none => y

/-- Stripped text of an optional element, "N/A" when there is none
(`el.get_text(strip=True) if el else "N/A"`). -/
def textOrNA : Option Tag → String
  | some t => t.text
  | Option.none => "N/A"

/-- `link_tag["href"] if link_tag and link_tag.has_attr("href") else "N/A"`. -/
def hrefOrNA : Option Tag → String
  | some t => t.href.getD "N/A"
  | Option.none => "N/A"

/-- The date text of a USFA card (lines 249-250): first match among
".date", ".dates", ".t-date", else "N/A". -/
def usfaDateText (c : Card) : String :=
  textOrNA (tagOr (c ".date") (tagOr (c ".dates") (c ".t-date")))

/-- The raw record one matched USFA card yields (lines 245-262). -/
def usfaRawEvent (c : Card) : RawRecord :=
  let title_text := textOrNA (tagOr (c ".title") (tagOr (c "h3") (c "a")))
  let date_text := usfaDateText c
  let loc_text := textOrNA (tagOr (c ".location") (tagOr (c ".place") (c ".t-location")))
  let link := hrefOrNA (c "a")
  [("event_name", pyOr (PyVal.str title_text) (PyVal.str "N/A")),
   ("start_date", PyVal.str date_text),
   ("end_date", PyVal.str date_text),
   ("location", PyVal.str loc_text),
   ("sanction", PyVal.str "USFA"),
   ("link", PyVal.str link)]

/-- The date text of a PGF card (lines 293-294): the single combined
selector ".t-date, .date", else "N/A". -/
def pgfDateText (c : Card) : String :=
  textOrNA (c ".t-date, .date")

/-- The raw record one matched PGF card yields (lines 289-306). -/
def pgfRawEvent (c : Card) : RawRecord :=
  let title := textOrNA (c ".t-title, h3, .title, a")
  let date_text := pgfDateText c
  let loc_text := textOrNA (c ".t-loc, .location")
  let link := hrefOrNA (c "a")
  [("event_name", PyVal.str title),
   ("start_date", PyVal.str date_text),
   ("end_date", PyVal.str date_text),
   ("location", PyVal.str loc_text),
   ("sanction", PyVal.str "PGF"),
   ("link", PyVal.str link)]

/-- The date text of a Bullpen row (lines 336-337): selector
".dates, .date", else "N/A". -/
def bullpenDateText (c : Card) : String :=
  textOrNA (c ".dates, .date")

/-- The raw record one matched Bullpen row yields (lines 332-350). -/
def bullpenRawEvent (c : Card) : RawRecord :=
  let title := textOrNA (c ".name, h3, a")
  let date_text := bullpenDateText c
  let loc_text := textOrNA (c ".location, .place")
  let link := hrefOrNA (c "a")
  [("event_name", PyVal.str title),
   ("start_date", PyVal.str date_text),
   ("end_date", PyVal.str date_text),
   ("location", PyVal.str loc_text),
   ("sanction", PyVal.str "Bullpen"),
   ("link", PyVal.str link)]

/-- The date text of a SoftballConnected card (lines 377-378): selector
".date, .dates", else "N/A". -/
def softballDateText (c : Card) : String :=
  textOrNA (c ".date, .dates")

/-- The raw record one matched SoftballConnected card yields
(lines 373-391). -/
def softballRawEvent (c : Card) : RawRecord :=
  let title := textOrNA (c ".title, h3, .name, a")
  let date_text := softballDateText c
  let loc_text := textOrNA (c ".location, .place, .city")
  let link := hrefOrNA (c "a")
  [("event_name", PyVal.str title),
   ("start_date", PyVal.str date_text),
   ("end_date", PyVal.str date_text),
   ("location", PyVal.str loc_text),
   ("sanction", PyVal.str "SoftballConnected"),
   ("link", PyVal.str link)]

/-- A card on which no sub-selector matches anything. -/
def blankCard : Card := fun _ => Option.none

/-- C10: on the matched-card/row path of the four selector-based adapters
(USFA, PGF, Bullpen, SoftballConnected), every emitted event has
end_date equal to start_date, both being the single extracted date text;
and on a card where no date selector matches, that date text is "N/A". -/
theorem C10_end_date_equals_start_date :
    (∀ c : Card,
      rawGet (usfaRawEvent c) "end_date" = rawGet (usfaRawEvent c) "start_date" ∧
      rawGet (usfaRawEvent c) "end_date" = PyVal.str (usfaDateText c)) ∧
    (∀ c : Card,
      rawGet (pgfRawEvent c) "end_date" = rawGet (pgfRawEvent c) "start_date" ∧
      rawGet (pgfRawEvent c) "end_date" = PyVal.str (pgfDateText c)) ∧
    (∀ c : Card,
      rawGet (bullpenRawEvent c) "end_date" = rawGet (bullpenRawEvent c) "start_date" ∧
      rawGet (bullpenRawEvent c) "end_date" = PyVal.str (bullpenDateText c)) ∧
    (∀ c : Card,
      rawGet (softballRawEvent c) "end_date" = rawGet (softballRawEvent c) "start_date" ∧
      rawGet (softballRawEvent c) "end_date" = PyVal.str (softballDateText c)) ∧
    usfaDateText blankCard = "N/A" ∧
    pgfDateText blankCard = "N/A" ∧
    bullpenDateText blankCard = "N/A" ∧
    softballDateText blankCard = "N/A" := by
  exact ⟨fun c => ⟨rfl, rfl⟩, fun c => ⟨rfl, rfl⟩, fun c => ⟨rfl, rfl⟩,
    fun c => ⟨rfl, rfl⟩, rfl, rfl, rfl, rfl⟩
